import Mathlib

/-!
Verification of the Schedulr conflict-detection and batch-commit engine.

The definitions below are a shallow embedding of
`src/server/routers/scheduler.ts` (the conflict evaluator
`validateSessionCreate` / `validateSessionMove` and the batch commit engine
`batchSaveChanges`) over an explicit relational store.  The store's tables
mirror the SQL schema of the repository, in particular the uniqueness
constraint `UNIQUE (block_id, day_of_week, room_id, semester_id)` on
`class_sessions` and the unique index on
`class_session_teachers (teacher_id, class_session_id)`.

Prisma query builders are modelled as follows: `findUnique` / `findFirst`
become `List.find?`, `findMany` becomes `List.filter`, relation filters
(`class: { gradeId: ... }`, `classSession: { ... }`) become existential
scans over the referenced table, `create` / `update` / `deleteMany` become
pure store updates that fail (as the database would) when the schema's
uniqueness constraints are violated, and `ctx.db.$transaction` becomes a
fold that discards the intermediate store on any error (rollback).
Referential integrity of foreign keys is assumed rather than re-checked;
joins (`include`) become lookups with an inert default for the message
strings, which under intact foreign keys never fires.
-/

namespace Schedulr

/-- Conflict type tags, from `ConflictTypeSchema` in scheduler.ts. -/
inductive ConflictType
  | teacher
  | room
  | homeroom
  | a_level
deriving DecidableEq, Repr

/-- Warning type tags, from `WarningTypeSchema` in scheduler.ts. -/
inductive WarningType
  | duplicate_class
deriving DecidableEq, Repr

/-- A blocking conflict, from `interface Conflict` in scheduler.ts. -/
structure Conflict where
  type : ConflictType
  message : String
  relatedSessionId : Option Nat := none
deriving DecidableEq, Repr

/-- A non-blocking warning, from `interface Warning` in scheduler.ts. -/
structure Warning where
  type : WarningType
  message : String
  relatedSessionId : Option Nat := none
deriving DecidableEq, Repr

/-- Dry-run verdict, from `interface ValidationResult` in scheduler.ts. -/
structure ValidationResult where
  valid : Bool
  conflicts : List Conflict
  warnings : List Warning
deriving DecidableEq, Repr

/-- TRPCError codes used by the scheduler router, plus
`INTERNAL_SERVER_ERROR` for errors raised by the database itself
(uniqueness-constraint violations, update of a missing record). -/
inductive ErrCode
  | NOT_FOUND
  | BAD_REQUEST
  | CONFLICT
  | INTERNAL_SERVER_ERROR
deriving DecidableEq, Repr

/-- A thrown `TRPCError` (code plus message). -/
structure ApiError where
  code : ErrCode
  message : String
deriving DecidableEq, Repr

/-- A row of `classes` (SQL schema): `grade_id` is nullable — a class with
`gradeId = none` is "shared", one with `some g` is grade-specific. -/
structure Cls where
  id : Nat
  code : String
  name : String
  sectionId : Nat
  gradeId : Option Nat
  semesterId : Nat
deriving DecidableEq, Repr

/-- A row of `grades` (SQL schema). -/
structure Grade where
  id : Nat
  sectionId : Nat
  name : String
deriving DecidableEq, Repr

/-- A row of `blocks` (SQL schema); only the fields the engine reads. -/
structure Block where
  id : Nat
  name : String
  semesterId : Nat
deriving DecidableEq, Repr

/-- A row of `rooms` (SQL schema); only the fields the engine reads. -/
structure Room where
  id : Nat
  name : String
  typeId : Nat
deriving DecidableEq, Repr

/-- A row of `teachers` (SQL schema). -/
structure Teacher where
  id : Nat
  name : String
deriving DecidableEq, Repr

/-- A row of `class_sessions` (SQL schema, plus the nullable
`homeroom_id` added by the migration in the repository). -/
structure ClassSession where
  id : Nat
  classId : Nat
  blockId : Nat
  dayOfWeek : Nat
  roomId : Nat
  semesterId : Nat
  homeroomId : Option Nat
deriving DecidableEq, Repr

/-- A row of `class_session_teachers` (SQL schema). -/
structure SessionTeacher where
  classSessionId : Nat
  teacherId : Nat
  role : String
deriving DecidableEq, Repr

/-- A row of `duty_types` (SQL schema). -/
structure DutyType where
  id : Nat
  typeName : String
deriving DecidableEq, Repr

/-- A row of `duties` (SQL schema). -/
structure Duty where
  id : Nat
  teacherId : Nat
  blockId : Nat
  dayOfWeek : Nat
  dutyTypeId : Nat
  roomId : Nat
  semesterId : Nat
deriving DecidableEq, Repr

/-- The relational store: the tables scheduler.ts reads and writes.
`nextSessionId` models the AUTO_INCREMENT id counter of `class_sessions`. -/
structure Store where
  classes : List Cls
  grades : List Grade
  blocks : List Block
  rooms : List Room
  teachers : List Teacher
  sessions : List ClassSession
  sessionTeachers : List SessionTeacher
  dutyTypes : List DutyType
  duties : List Duty
  nextSessionId : Nat
deriving DecidableEq, Repr

/-- `DAY_NAMES` constant from scheduler.ts. -/
def DAY_NAMES : List String :=
  ["Monday", "Tuesday", "Wednesday", "Thursday", "Friday"]

/-- `DAY_NAMES[d - 1]`: JavaScript indexing out of range yields
`undefined`, which template literals print as "undefined". -/
def dayName (d : Nat) : String :=
  DAY_NAMES.getD (d - 1) ("undefined")

/-- `db.class.findUnique({ where: { id } })`. -/
def lookupClass (st : Store) (i : Nat) : Option Cls :=
  st.classes.find? (fun c => c.id == i)

/-- `db.block.findUnique({ where: { id } })`. -/
def lookupBlock (st : Store) (i : Nat) : Option Block :=
  st.blocks.find? (fun b => b.id == i)

/-- `db.classSession.findUnique({ where: { id } })`. -/
def lookupSession (st : Store) (i : Nat) : Option ClassSession :=
  st.sessions.find? (fun s => s.id == i)

/-- Name of a room, through the `include: { room: true }` join. -/
def roomNameOf (st : Store) (i : Nat) : String :=
  ((st.rooms.find? (fun r => r.id == i)).map Room.name).getD ("?")

/-- Name of a class, through the `include: { class: true }` join. -/
def classNameOf (st : Store) (i : Nat) : String :=
  ((lookupClass st i).map Cls.name).getD ("?")

/-- Name of a teacher, through the `include: { teacher: true }` join. -/
def teacherNameOf (st : Store) (i : Nat) : String :=
  ((st.teachers.find? (fun t => t.id == i)).map Teacher.name).getD ("?")

/-- Type name of a duty type, through the `include: { dutyType: true }` join. -/
def dutyTypeNameOf (st : Store) (i : Nat) : String :=
  ((st.dutyTypes.find? (fun t => t.id == i)).map DutyType.typeName).getD ("?")

/-- `gradeId` of the class of a stored session, through the relation filter
`class: { gradeId: ... }`; `none` when the class row is absent (impossible
under the schema's foreign keys). -/
def sessionClassGradeIs (st : Store) (s : ClassSession) (g : Nat) : Bool :=
  match lookupClass st s.classId with
  | some c => c.gradeId == some g
  | none => false

/-- Check 1 of `validateSessionCreate`: `classSession.findFirst` on the
target (block, day, room, semester). -/
def createRoomConflicts (st : Store) (targetBlockId targetDayOfWeek targetRoomId semesterId : Nat)
    (targetBlock : Block) : List Conflict :=
  match st.sessions.find? (fun s =>
      s.blockId == targetBlockId && s.dayOfWeek == targetDayOfWeek &&
      s.roomId == targetRoomId && s.semesterId == semesterId) with
  | some rc =>
    [{ type := ConflictType.room,
       message := roomNameOf st rc.roomId ++ " is already booked for " ++
         classNameOf st rc.classId ++ " in " ++ targetBlock.name ++
         " (" ++ dayName targetDayOfWeek ++ ").",
       relatedSessionId := some rc.id }]
  | none => []

/-- Check 2 of `validateSessionCreate`: `duty.findFirst` on the target
(block, day, room, semester). -/
def createRoomDutyConflicts (st : Store) (targetBlockId targetDayOfWeek targetRoomId semesterId : Nat)
    (targetBlock : Block) : List Conflict :=
  match st.duties.find? (fun du =>
      du.blockId == targetBlockId && du.dayOfWeek == targetDayOfWeek &&
      du.roomId == targetRoomId && du.semesterId == semesterId) with
  | some du =>
    [{ type := ConflictType.room,
       message := roomNameOf st du.roomId ++ " is in use for " ++
         dutyTypeNameOf st du.dutyTypeId ++ " duty by " ++
         teacherNameOf st du.teacherId ++ " in " ++ targetBlock.name ++
         " (" ++ dayName targetDayOfWeek ++ ").",
       relatedSessionId := none }]
  | none => []

/-- Check 3 of `validateSessionCreate`: same-grade overlap, run only when
the class being scheduled has a grade. -/
def createGradeConflicts (st : Store) (targetBlockId targetDayOfWeek semesterId : Nat)
    (targetBlock : Block) (gradeId : Option Nat) : List Conflict :=
  match gradeId with
  | some g =>
    match st.sessions.find? (fun s =>
        s.blockId == targetBlockId && s.dayOfWeek == targetDayOfWeek &&
        s.semesterId == semesterId && sessionClassGradeIs st s g) with
    | some hc =>
      [{ type := ConflictType.homeroom,
         message := "Students would have a conflict: " ++
           classNameOf st hc.classId ++ " is scheduled at the same time in " ++
           targetBlock.name ++ " (" ++ dayName targetDayOfWeek ++ ").",
         relatedSessionId := some hc.id }]
    | none => []
  | none => []

/-- The `id: { not: excludeId }` where-fragment used by the move scans
(`none` means the filter is absent, as in the create scans). -/
def notExcluded (excl : Option Nat) (i : Nat) : Bool :=
  match excl with
  | some e => !(i == e)
  | none => true

/-- Checks 4/5 of `validateSessionCreate` (and of `validateSessionMove`,
which passes its own session id as `excludeId`): shared vs grade-specific
exclusivity over `findMany` of all sessions in the target
(block, day, semester), pushing one `homeroom` conflict per colliding
session.  `excludeId = none` means no `id: { not: ... }` filter. -/
def sharedGradeConflicts (st : Store) (targetBlockId targetDayOfWeek semesterId : Nat)
    (targetBlock : Block) (gradeId : Option Nat) (excludeId : Option Nat) : List Conflict :=
  let conflictingSessions := st.sessions.filter (fun s =>
    notExcluded excludeId s.id &&
    s.blockId == targetBlockId && s.dayOfWeek == targetDayOfWeek &&
    s.semesterId == semesterId)
  conflictingSessions.flatMap (fun s =>
    match lookupClass st s.classId with
    | none => []
    | some sc =>
      (if gradeId.isSome && sc.gradeId.isNone then
        [{ type := ConflictType.homeroom,
           message := "Cannot schedule grade-specific class. " ++ sc.name ++
             " (shared) is already scheduled in " ++ targetBlock.name ++
             " (" ++ dayName targetDayOfWeek ++ ").",
           relatedSessionId := some s.id }]
       else []) ++
      (if gradeId.isNone && sc.gradeId.isSome then
        [{ type := ConflictType.homeroom,
           message := "Cannot schedule shared class. " ++ sc.name ++
             " (grade-specific) is already scheduled in " ++ targetBlock.name ++
             " (" ++ dayName targetDayOfWeek ++ ").",
           relatedSessionId := some s.id }]
       else []))

/-- Check 5 of `validateSessionCreate` / check 6 of `validateSessionMove`:
the `findMany` of same-class sessions on the target day (the `duplicateCheck`
list); `excludeId` as in `sharedGradeConflicts`. -/
def duplicateSessions (st : Store) (targetDayOfWeek semesterId classId : Nat)
    (excludeId : Option Nat) : List ClassSession :=
  st.sessions.filter (fun s =>
    notExcluded excludeId s.id &&
    s.dayOfWeek == targetDayOfWeek && s.semesterId == semesterId &&
    s.classId == classId)

/-- The `duplicate_class` warning pushed when `duplicateCheck` is nonempty. -/
def duplicateWarnings (st : Store) (targetDayOfWeek semesterId classId : Nat)
    (excludeId : Option Nat) (className : String) : List Warning :=
  let duplicateCheck := duplicateSessions st targetDayOfWeek semesterId classId excludeId
  if duplicateCheck.length > 0 then
    [{ type := WarningType.duplicate_class,
       message := className ++ " is already scheduled " ++
         toString duplicateCheck.length ++ " time(s) on " ++
         dayName targetDayOfWeek ++ ".",
       relatedSessionId := duplicateCheck.head?.map ClassSession.id }]
  else []

/-- The conflicts list assembled by `validateSessionCreate`, checks 1–4 in
push order. -/
def createConflictList (st : Store) (targetBlockId targetDayOfWeek targetRoomId semesterId : Nat)
    (classToSchedule : Cls) (targetBlock : Block) : List Conflict :=
  createRoomConflicts st targetBlockId targetDayOfWeek targetRoomId semesterId targetBlock ++
  createRoomDutyConflicts st targetBlockId targetDayOfWeek targetRoomId semesterId targetBlock ++
  createGradeConflicts st targetBlockId targetDayOfWeek semesterId targetBlock classToSchedule.gradeId ++
  sharedGradeConflicts st targetBlockId targetDayOfWeek semesterId targetBlock classToSchedule.gradeId none

/-- The verdict `validateSessionCreate` returns once the class and the
target block have been found. -/
def createVerdict (st : Store) (classId targetBlockId targetDayOfWeek targetRoomId semesterId : Nat)
    (classToSchedule : Cls) (targetBlock : Block) : ValidationResult :=
  let conflicts :=
    createConflictList st targetBlockId targetDayOfWeek targetRoomId semesterId classToSchedule targetBlock
  { valid := conflicts.length == 0,
    conflicts := conflicts,
    warnings := duplicateWarnings st targetDayOfWeek semesterId classId none classToSchedule.name }

/-- `validateSessionCreate` from scheduler.ts: dry-run validation of a new
session placement.  Throws NOT_FOUND when the class or the target block is
missing; note the target room is never looked up. -/
def validateSessionCreate (st : Store) (classId targetBlockId targetDayOfWeek targetRoomId semesterId : Nat) :
    Except ApiError ValidationResult :=
  match lookupClass st classId with
  | none => Except.error { code := ErrCode.NOT_FOUND, message := "Class not found" }
  | some classToSchedule =>
    match lookupBlock st targetBlockId with
    | none => Except.error { code := ErrCode.NOT_FOUND, message := "Target block not found" }
    | some targetBlock =>
      Except.ok
        (createVerdict st classId targetBlockId targetDayOfWeek targetRoomId semesterId
          classToSchedule targetBlock)

/-- Relation filter `classSession: { id: { not: excludeId }, blockId,
dayOfWeek, semesterId }` applied to a `classSessionTeacher` row via its
foreign key `lsid`: the referenced session exists and matches. -/
def sessionSlotMatch (st : Store) (lsid excludeId b d sem : Nat) : Bool :=
  st.sessions.any (fun s =>
    s.id == lsid && !(s.id == excludeId) && s.blockId == b &&
    s.dayOfWeek == d && s.semesterId == sem)

/-- Class name of the session referenced by a teacher link (the
`teacherConflict.classSession.class.name` join). -/
def linkSessionClassName (st : Store) (lsid : Nat) : String :=
  match lookupSession st lsid with
  | some cs => classNameOf st cs.classId
  | none => "?"

/-- Check 1 of `validateSessionMove`: for each teacher assigned to the
session being moved, `classSessionTeacher.findFirst` for another session of
that teacher in the target (block, day, semester), and `duty.findFirst` for
a duty of that teacher there. -/
def moveTeacherConflicts (st : Store) (classSessionId targetBlockId targetDayOfWeek semesterId : Nat)
    (targetBlock : Block) : List Conflict :=
  let sessionTeacherLinks := st.sessionTeachers.filter (fun t => t.classSessionId == classSessionId)
  sessionTeacherLinks.flatMap (fun ta =>
    (match st.sessionTeachers.find? (fun l =>
        l.teacherId == ta.teacherId &&
        sessionSlotMatch st l.classSessionId classSessionId targetBlockId targetDayOfWeek semesterId) with
     | some l =>
       [{ type := ConflictType.teacher,
          message := teacherNameOf st ta.teacherId ++ " is already teaching " ++
            linkSessionClassName st l.classSessionId ++ " in " ++ targetBlock.name ++
            " (" ++ dayName targetDayOfWeek ++ ").",
          relatedSessionId := some l.classSessionId }]
     | none => []) ++
    (match st.duties.find? (fun du =>
        du.teacherId == ta.teacherId && du.blockId == targetBlockId &&
        du.dayOfWeek == targetDayOfWeek && du.semesterId == semesterId) with
     | some du =>
       [{ type := ConflictType.teacher,
          message := teacherNameOf st ta.teacherId ++ " has " ++
            dutyTypeNameOf st du.dutyTypeId ++ " duty in " ++ targetBlock.name ++
            " (" ++ dayName targetDayOfWeek ++ ").",
          relatedSessionId := none }]
     | none => []))

/-- Check 2 of `validateSessionMove`: `classSession.findFirst` on the target
(block, day, room, semester), excluding the session being moved. -/
def moveRoomConflicts (st : Store) (classSessionId targetBlockId targetDayOfWeek targetRoomId semesterId : Nat)
    (targetBlock : Block) : List Conflict :=
  match st.sessions.find? (fun s =>
      !(s.id == classSessionId) &&
      s.blockId == targetBlockId && s.dayOfWeek == targetDayOfWeek &&
      s.roomId == targetRoomId && s.semesterId == semesterId) with
  | some rc =>
    [{ type := ConflictType.room,
       message := roomNameOf st rc.roomId ++ " is already booked for " ++
         classNameOf st rc.classId ++ " in " ++ targetBlock.name ++
         " (" ++ dayName targetDayOfWeek ++ ").",
       relatedSessionId := some rc.id }]
  | none => []

/-- Check 4 of `validateSessionMove`: same-grade overlap, excluding the
session being moved, run only when the moved session's class has a grade. -/
def moveGradeConflicts (st : Store) (classSessionId targetBlockId targetDayOfWeek semesterId : Nat)
    (targetBlock : Block) (classGradeId : Option Nat) : List Conflict :=
  match classGradeId with
  | some g =>
    match st.sessions.find? (fun s =>
        !(s.id == classSessionId) &&
        s.blockId == targetBlockId && s.dayOfWeek == targetDayOfWeek &&
        s.semesterId == semesterId && sessionClassGradeIs st s g) with
    | some hc =>
      [{ type := ConflictType.homeroom,
         message := "Students would have a conflict: " ++
           classNameOf st hc.classId ++ " is scheduled at the same time in " ++
           targetBlock.name ++ " (" ++ dayName targetDayOfWeek ++ ").",
         relatedSessionId := some hc.id }]
    | none => []
  | none => []

/-- The conflicts list assembled by `validateSessionMove`, checks 1–5 in
push order (check 3 reuses the duty scan shared with the create path). -/
def moveConflictList (st : Store) (classSessionId targetBlockId targetDayOfWeek targetRoomId semesterId : Nat)
    (session : ClassSession) (targetBlock : Block) : List Conflict :=
  let classGradeId := (lookupClass st session.classId).bind Cls.gradeId
  moveTeacherConflicts st classSessionId targetBlockId targetDayOfWeek semesterId targetBlock ++
  moveRoomConflicts st classSessionId targetBlockId targetDayOfWeek targetRoomId semesterId targetBlock ++
  createRoomDutyConflicts st targetBlockId targetDayOfWeek targetRoomId semesterId targetBlock ++
  moveGradeConflicts st classSessionId targetBlockId targetDayOfWeek semesterId targetBlock classGradeId ++
  sharedGradeConflicts st targetBlockId targetDayOfWeek semesterId targetBlock classGradeId
    (some classSessionId)

/-- The verdict `validateSessionMove` returns once the session and the
target block have been found. -/
def moveVerdict (st : Store) (classSessionId targetBlockId targetDayOfWeek targetRoomId semesterId : Nat)
    (session : ClassSession) (targetBlock : Block) : ValidationResult :=
  let conflicts :=
    moveConflictList st classSessionId targetBlockId targetDayOfWeek targetRoomId semesterId
      session targetBlock
  { valid := conflicts.length == 0,
    conflicts := conflicts,
    warnings := duplicateWarnings st targetDayOfWeek semesterId session.classId
      (some classSessionId) (((lookupClass st session.classId).map Cls.name).getD ("?")) }

/-- `validateSessionMove` from scheduler.ts: dry-run validation of moving an
existing session to a target (block, day, room) in a semester.  Throws
NOT_FOUND when the session or the target block is missing; note the target
room is never looked up.  The moved session's class joins (`session.class`)
go through `lookupClass`; under intact foreign keys the class row exists. -/
def validateSessionMove (st : Store) (classSessionId targetBlockId targetDayOfWeek targetRoomId semesterId : Nat) :
    Except ApiError ValidationResult :=
  match lookupSession st classSessionId with
  | none => Except.error { code := ErrCode.NOT_FOUND, message := "Class session not found" }
  | some session =>
    match lookupBlock st targetBlockId with
    | none => Except.error { code := ErrCode.NOT_FOUND, message := "Target block not found" }
    | some targetBlock =>
      Except.ok
        (moveVerdict st classSessionId targetBlockId targetDayOfWeek targetRoomId semesterId
          session targetBlock)

/-- The four batch operation kinds of `batchSaveChanges`. -/
inductive ChangeType
  | move
  | create
  | update_room
  | update_teacher
deriving DecidableEq, Repr

/-- One element of the `changes` array accepted by `batchSaveChanges`:
`sessionId` is required by the zod schema, every other field optional. -/
structure Change where
  type : ChangeType
  sessionId : Nat
  blockId : Option Nat := none
  dayOfWeek : Option Nat := none
  roomId : Option Nat := none
  classId : Option Nat := none
  semesterId : Option Nat := none
  homeroomId : Option Nat := none
  teacherId : Option Nat := none
deriving DecidableEq, Repr

/-- One record of the `results` array returned by `batchSaveChanges`. -/
structure BatchResult where
  type : ChangeType
  id : Nat
deriving DecidableEq, Repr

/-- JavaScript truthiness test `!change.field` on an optional numeric
field: both `undefined` and `0` are falsy. -/
def falsy : Option Nat → Bool
  | none => true
  | some n => n == 0

/-- The store's uniqueness backstop, `UNIQUE (block_id, day_of_week,
room_id, semester_id)` on `class_sessions`: true when some row other than
`excludeId` already occupies the tuple. -/
def slotOccupiedBesides (st : Store) (excludeId b d r sem : Nat) : Bool :=
  st.sessions.any (fun s =>
    !(s.id == excludeId) && s.blockId == b && s.dayOfWeek == d &&
    s.roomId == r && s.semesterId == sem)

/-- As `slotOccupiedBesides` with no excluded row (used for inserts). -/
def slotOccupied (st : Store) (b d r sem : Nat) : Bool :=
  st.sessions.any (fun s =>
    s.blockId == b && s.dayOfWeek == d && s.roomId == r && s.semesterId == sem)

/-- Grade name fallback `cls.grade ? cls.grade.name : cls.gradeId` used in
the batch grade-conflict messages. -/
def gradeNameOrId (st : Store) (g : Nat) : String :=
  ((st.grades.find? (fun x => x.id == g)).map Grade.name).getD (toString g)

/-- In-transaction grade-overlap scan of the batch engine:
`tx.classSession.findFirst` for a session (other than `excludeId`, when a
move) in (block, day, semester) whose class has grade `g`. -/
def batchGradeConflict (st : Store) (excludeId : Option Nat) (b d sem g : Nat) :
    Option ClassSession :=
  st.sessions.find? (fun s =>
    notExcluded excludeId s.id &&
    s.blockId == b && s.dayOfWeek == d && s.semesterId == sem &&
    sessionClassGradeIs st s g)

/-- The grade-conflict error thrown by the batch engine. -/
def gradeConflictError (st : Store) (g : Nat) (gc : ClassSession) : ApiError :=
  { code := ErrCode.CONFLICT,
    message := "Grade Conflict: Grade " ++ gradeNameOrId st g ++ " already has " ++
      classNameOf st gc.classId ++ " scheduled at this time." }

/-- The error the database raises when the `class_sessions` uniqueness
constraint rejects an insert or update (surfaced by tRPC as
INTERNAL_SERVER_ERROR). -/
def uniqueViolation : ApiError :=
  { code := ErrCode.INTERNAL_SERVER_ERROR,
    message := "Unique constraint failed on class_sessions" }

/-- One iteration of the `for (const change of changes)` loop of
`batchSaveChanges`, acting on the live in-transaction store.  Returns the
updated store and the result records pushed by this iteration (empty for a
skipped create, a singleton otherwise). -/
def batchStep (st : Store) (change : Change) : Except ApiError (Store × List BatchResult) :=
  match change.type with
  | ChangeType.create =>
    if falsy change.classId || falsy change.blockId || falsy change.dayOfWeek ||
        falsy change.roomId || falsy change.semesterId then
      Except.error { code := ErrCode.BAD_REQUEST, message := "Missing required fields for create" }
    else
      let classId := change.classId.getD 0
      let blockId := change.blockId.getD 0
      let day := change.dayOfWeek.getD 0
      let roomId := change.roomId.getD 0
      let semId := change.semesterId.getD 0
      match lookupClass st classId with
      | none => Except.ok (st, [])
      | some cls =>
        let conflict :=
          match cls.gradeId with
          | some g => (batchGradeConflict st none blockId day semId g).map (fun s => (g, s))
          | none => none
        match conflict with
        | some (g, gc) => Except.error (gradeConflictError st g gc)
        | none =>
          if slotOccupied st blockId day roomId semId then
            Except.error uniqueViolation
          else
            let created : ClassSession :=
              { id := st.nextSessionId, classId := classId, blockId := blockId,
                dayOfWeek := day, roomId := roomId, semesterId := semId,
                homeroomId := change.homeroomId }
            Except.ok
              ({ st with sessions := st.sessions ++ [created],
                         nextSessionId := st.nextSessionId + 1 },
               [{ type := ChangeType.create, id := created.id }])
  | ChangeType.move =>
    if falsy change.blockId || falsy change.dayOfWeek || falsy change.roomId ||
        change.sessionId == 0 then
      Except.error { code := ErrCode.BAD_REQUEST, message := "Missing required fields for move" }
    else
      let blockId := change.blockId.getD 0
      let day := change.dayOfWeek.getD 0
      let roomId := change.roomId.getD 0
      match lookupSession st change.sessionId with
      | none =>
        Except.error { code := ErrCode.NOT_FOUND,
                       message := "Session " ++ toString change.sessionId ++ " not found" }
      | some session =>
        let conflict :=
          match (lookupClass st session.classId).bind Cls.gradeId with
          | some g =>
            (batchGradeConflict st (some change.sessionId) blockId day session.semesterId g).map
              (fun s => (g, s))
          | none => none
        match conflict with
        | some (g, gc) => Except.error (gradeConflictError st g gc)
        | none =>
          if slotOccupiedBesides st change.sessionId blockId day roomId session.semesterId then
            Except.error uniqueViolation
          else
            Except.ok
              ({ st with sessions := st.sessions.map (fun s =>
                   if s.id == change.sessionId then
                     { s with blockId := blockId, dayOfWeek := day, roomId := roomId }
                   else s) },
               [{ type := ChangeType.move, id := change.sessionId }])
  | ChangeType.update_room =>
    if falsy change.roomId || change.sessionId == 0 then
      Except.error { code := ErrCode.BAD_REQUEST, message := "Missing required fields for update_room" }
    else
      let roomId := change.roomId.getD 0
      match lookupSession st change.sessionId with
      | none =>
        Except.error { code := ErrCode.INTERNAL_SERVER_ERROR, message := "Record to update not found" }
      | some session =>
        if slotOccupiedBesides st change.sessionId session.blockId session.dayOfWeek roomId
            session.semesterId then
          Except.error uniqueViolation
        else
          Except.ok
            ({ st with sessions := st.sessions.map (fun s =>
                 if s.id == change.sessionId then { s with roomId := roomId } else s) },
             [{ type := ChangeType.update_room, id := change.sessionId }])
  | ChangeType.update_teacher =>
    if falsy change.teacherId || change.sessionId == 0 then
      Except.error { code := ErrCode.BAD_REQUEST, message := "Missing required fields for update_teacher" }
    else
      let tid := change.teacherId.getD 0
      let cleared := st.sessionTeachers.filter (fun l => !(l.classSessionId == change.sessionId))
      Except.ok
        ({ st with sessionTeachers :=
             cleared ++ [{ classSessionId := change.sessionId, teacherId := tid, role := "Primary" }] },
         [{ type := ChangeType.update_teacher, id := change.sessionId }])

/-- The body of the transaction callback: fold `batchStep` over the changes
in input order, accumulating the `results` array. -/
def runChanges : Store → List Change → Except ApiError (Store × List BatchResult)
  | st, [] => Except.ok (st, [])
  | st, c :: cs =>
    match batchStep st c with
    | Except.error e => Except.error e
    | Except.ok (st1, rs) =>
      match runChanges st1 cs with
      | Except.error e => Except.error e
      | Except.ok (st2, rest) => Except.ok (st2, rs ++ rest)

/-- `batchSaveChanges` from scheduler.ts: run the whole batch inside
`ctx.db.$transaction` — when any step throws, the transaction is rolled
back and the store is left exactly as before the call. -/
def batchSaveChanges (st : Store) (changes : List Change) :
    Store × Except ApiError (List BatchResult) :=
  match runChanges st changes with
  | Except.ok (st1, results) => (st1, Except.ok results)
  | Except.error e => (st, Except.error e)

/-- Fixture: two grade-specific sessions and a third class, for exercising
the batch engine (two moves that succeed, then a create that collides with
the first move's target slot). -/
def exA : Store :=
  { classes :=
      [{ id := 1, code := "M10", name := "Math10", sectionId := 1, gradeId := some 1, semesterId := 1 },
       { id := 2, code := "M11", name := "Math11", sectionId := 1, gradeId := some 2, semesterId := 1 },
       { id := 3, code := "B12", name := "Bio12", sectionId := 1, gradeId := some 3, semesterId := 1 }],
    grades := [⟨1, 1, "Grade 10"⟩, ⟨2, 1, "Grade 11"⟩, ⟨3, 1, "Grade 12"⟩],
    blocks := [⟨1, "B1", 1⟩, ⟨2, "B2", 1⟩],
    rooms := [⟨1, "R1", 1⟩, ⟨2, "R2", 1⟩],
    teachers := [⟨1, "T1"⟩],
    sessions := [⟨1, 1, 1, 1, 1, 1, none⟩, ⟨2, 2, 1, 2, 1, 1, none⟩],
    sessionTeachers := [],
    dutyTypes := [],
    duties := [],
    nextSessionId := 3 }

/-- A 3-operation batch over `exA` whose third operation violates the
(block, day, room, semester) uniqueness backstop. -/
def batchA : List Change :=
  [{ type := ChangeType.move, sessionId := 1, blockId := some 2, dayOfWeek := some 1, roomId := some 1 },
   { type := ChangeType.move, sessionId := 2, blockId := some 2, dayOfWeek := some 2, roomId := some 1 },
   { type := ChangeType.create, sessionId := 0, blockId := some 2, dayOfWeek := some 1,
     roomId := some 1, classId := some 3, semesterId := some 1 }]

/-- As `batchA` but with a conflict-free third operation, so the whole
batch commits. -/
def batchA2 : List Change :=
  [{ type := ChangeType.move, sessionId := 1, blockId := some 2, dayOfWeek := some 1, roomId := some 1 },
   { type := ChangeType.move, sessionId := 2, blockId := some 2, dayOfWeek := some 2, roomId := some 1 },
   { type := ChangeType.create, sessionId := 0, blockId := some 2, dayOfWeek := some 3,
     roomId := some 1, classId := some 3, semesterId := some 1 }]

/-- Fixture: teacher 1 teaches the only session, which occupies
(block 1, day 1, semester 1). -/
def exB : Store :=
  { classes :=
      [{ id := 1, code := "M10", name := "Math10", sectionId := 1, gradeId := some 1, semesterId := 1 },
       { id := 2, code := "M11", name := "Math11", sectionId := 1, gradeId := some 2, semesterId := 1 }],
    grades := [⟨1, 1, "Grade 10"⟩, ⟨2, 1, "Grade 11"⟩],
    blocks := [⟨1, "B1", 1⟩],
    rooms := [⟨1, "R1", 1⟩, ⟨2, "R2", 1⟩],
    teachers := [⟨1, "T1"⟩],
    sessions := [⟨1, 1, 1, 1, 1, 1, none⟩],
    sessionTeachers := [⟨1, 1, "Primary"⟩],
    dutyTypes := [],
    duties := [],
    nextSessionId := 2 }

/-- Fixture: as `exB` plus a second session (class 2, block 2, day 1,
room 2) also taught by teacher 1. -/
def exC : Store :=
  { classes :=
      [{ id := 1, code := "M10", name := "Math10", sectionId := 1, gradeId := some 1, semesterId := 1 },
       { id := 2, code := "M11", name := "Math11", sectionId := 1, gradeId := some 2, semesterId := 1 }],
    grades := [⟨1, 1, "Grade 10"⟩, ⟨2, 1, "Grade 11"⟩],
    blocks := [⟨1, "B1", 1⟩, ⟨2, "B2", 1⟩],
    rooms := [⟨1, "R1", 1⟩, ⟨2, "R2", 1⟩],
    teachers := [⟨1, "T1"⟩],
    sessions := [⟨1, 1, 1, 1, 1, 1, none⟩, ⟨2, 2, 2, 1, 2, 1, none⟩],
    sessionTeachers := [⟨1, 1, "Primary"⟩, ⟨2, 1, "Primary"⟩],
    dutyTypes := [],
    duties := [],
    nextSessionId := 3 }

/-- The verdict of validating a move of session 2 of `exC` into
(block 1, day 1, room 2, semester 1): teacher 1 is already teaching
session 1 there. -/
def vC : ValidationResult :=
  { valid := false,
    conflicts :=
      [{ type := ConflictType.teacher,
         message := "T1 is already teaching Math10 in B1 (Monday).",
         relatedSessionId := some 1 }],
    warnings := [] }

/-- Fixture: a class and a block exist but the rooms table is empty, so any
room id the caller supplies is dangling. -/
def exD : Store :=
  { classes := [{ id := 1, code := "X", name := "Xclass", sectionId := 1, gradeId := none, semesterId := 1 }],
    grades := [],
    blocks := [⟨1, "B1", 1⟩],
    rooms := [],
    teachers := [],
    sessions := [],
    sessionTeachers := [],
    dutyTypes := [],
    duties := [],
    nextSessionId := 1 }

/-- Fixture: a shared class (40) and a grade-specific class (41) share the
slot (block 1, day 1, semester 1) in different rooms; both sessions are
taught by teacher 1, and the shared class also meets at (block 2, day 1). -/
def exE : Store :=
  { classes :=
      [{ id := 10, code := "ASM", name := "Assembly", sectionId := 1, gradeId := none, semesterId := 1 },
       { id := 11, code := "B10", name := "Bio10", sectionId := 1, gradeId := some 1, semesterId := 1 }],
    grades := [⟨1, 1, "Grade 10"⟩],
    blocks := [⟨1, "B1", 1⟩, ⟨2, "B2", 1⟩],
    rooms := [⟨1, "R1", 1⟩, ⟨2, "R2", 1⟩, ⟨3, "R3", 1⟩],
    teachers := [⟨1, "T1"⟩],
    sessions := [⟨40, 10, 1, 1, 1, 1, none⟩, ⟨41, 11, 1, 1, 2, 1, none⟩, ⟨42, 10, 2, 1, 3, 1, none⟩],
    sessionTeachers := [⟨40, 1, "Primary"⟩, ⟨41, 1, "Primary"⟩],
    dutyTypes := [],
    duties := [],
    nextSessionId := 43 }

/-- The verdict of validating a move of session 40 of `exE` to its own
current slot (block 1, day 1, room 1): conflicts and a warning against the
other sessions, never against session 40 itself. -/
def vE : ValidationResult :=
  { valid := false,
    conflicts :=
      [{ type := ConflictType.teacher,
         message := "T1 is already teaching Bio10 in B1 (Monday).",
         relatedSessionId := some 41 },
       { type := ConflictType.homeroom,
         message := "Cannot schedule shared class. Bio10 (grade-specific) is already scheduled in B1 (Monday).",
         relatedSessionId := some 41 }],
    warnings :=
      [{ type := WarningType.duplicate_class,
         message := "Assembly is already scheduled 1 time(s) on Monday.",
         relatedSessionId := some 42 }] }

/-- Fixture: an entirely empty store. -/
def exF : Store :=
  { classes := [], grades := [], blocks := [], rooms := [], teachers := [],
    sessions := [], sessionTeachers := [], dutyTypes := [], duties := [],
    nextSessionId := 1 }

/-- A create operation referencing a class id (7) that does not exist. -/
def chgF : Change :=
  { type := ChangeType.create, sessionId := 0, blockId := some 1, dayOfWeek := some 1,
    roomId := some 1, classId := some 7, semesterId := some 1 }

/-- Fixture: class 1 already meets at (block 1, day 1, room 1, semester 1);
block 2 is free. -/
def exH : Store :=
  { classes := [{ id := 1, code := "M10", name := "Math10", sectionId := 1, gradeId := some 1, semesterId := 1 }],
    grades := [⟨1, 1, "Grade 10"⟩],
    blocks := [⟨1, "B1", 1⟩, ⟨2, "B2", 1⟩],
    rooms := [⟨1, "R1", 1⟩],
    teachers := [],
    sessions := [⟨31, 1, 1, 1, 1, 1, none⟩],
    sessionTeachers := [],
    dutyTypes := [],
    duties := [],
    nextSessionId := 32 }

/-- Fixture: session 1 has two teacher links (a co-teaching pair) and
session 2 has one. -/
def exI : Store :=
  { classes := [{ id := 1, code := "M10", name := "Math10", sectionId := 1, gradeId := some 1, semesterId := 1 }],
    grades := [⟨1, 1, "Grade 10"⟩],
    blocks := [⟨1, "B1", 1⟩],
    rooms := [⟨1, "R1", 1⟩],
    teachers := [⟨4, "T4"⟩, ⟨5, "T5"⟩, ⟨9, "T9"⟩],
    sessions := [⟨1, 1, 1, 1, 1, 1, none⟩, ⟨2, 1, 1, 2, 1, 1, none⟩],
    sessionTeachers := [⟨1, 4, "Primary"⟩, ⟨1, 5, "Assistant"⟩, ⟨2, 4, "Primary"⟩],
    dutyTypes := [],
    duties := [],
    nextSessionId := 3 }

/-- The update_teacher operation re-teachering session 1 to teacher 9. -/
def chgI : Change :=
  { type := ChangeType.update_teacher, sessionId := 1, teacherId := some 9 }

/-- Fixture: one session with a homeroom link and a teacher link, free
space at (block 2, day 2, room 2). -/
def exJ : Store :=
  { classes := [{ id := 1, code := "M10", name := "Math10", sectionId := 1, gradeId := some 1, semesterId := 1 }],
    grades := [⟨1, 1, "Grade 10"⟩],
    blocks := [⟨1, "B1", 1⟩, ⟨2, "B2", 1⟩],
    rooms := [⟨1, "R1", 1⟩, ⟨2, "R2", 1⟩],
    teachers := [⟨4, "T4"⟩],
    sessions := [⟨1, 1, 1, 1, 1, 1, some 7⟩],
    sessionTeachers := [⟨1, 4, "Primary"⟩],
    dutyTypes := [],
    duties := [],
    nextSessionId := 2 }

/-- The move operation relocating session 1 of `exJ` to (block 2, day 2,
room 2); its optional `semesterId` field is left unset. -/
def chgJ : Change :=
  { type := ChangeType.move, sessionId := 1, blockId := some 2, dayOfWeek := some 2,
    roomId := some 2 }

theorem validateSessionCreate_ok_inv {st : Store} {classId b d r sem : Nat} {v : ValidationResult}
    (h : validateSessionCreate st classId b d r sem = Except.ok v) :
    ∃ cls tb, lookupClass st classId = some cls ∧ lookupBlock st b = some tb ∧
      v = createVerdict st classId b d r sem cls tb := by
  unfold validateSessionCreate at h
  cases hc : lookupClass st classId with
  | none => rw [hc] at h; simp at h
  | some cls =>
    rw [hc] at h
    cases hb : lookupBlock st b with
    | none => rw [hb] at h; simp at h
    | some tb =>
      rw [hb] at h
      refine ⟨cls, tb, rfl, rfl, ?_⟩
      cases h
      rfl

theorem validateSessionMove_ok_inv {st : Store} {sid b d r sem : Nat} {v : ValidationResult}
    (h : validateSessionMove st sid b d r sem = Except.ok v) :
    ∃ s tb, lookupSession st sid = some s ∧ lookupBlock st b = some tb ∧
      v = moveVerdict st sid b d r sem s tb := by
  unfold validateSessionMove at h
  cases hs : lookupSession st sid with
  | none => rw [hs] at h; simp at h
  | some s =>
    rw [hs] at h
    cases hb : lookupBlock st b with
    | none => rw [hb] at h; simp at h
    | some tb =>
      rw [hb] at h
      refine ⟨s, tb, rfl, rfl, ?_⟩
      cases h
      rfl

/-- C1: batch commit is atomic — whenever `batchSaveChanges` reports an
error (failed in-transaction check or the store's uniqueness backstop), the
store after the call is exactly the store before the call; no prefix of the
batch is applied. -/
theorem batchSaveChanges_atomic (st : Store) (changes : List Change) (e : ApiError)
    (h : (batchSaveChanges st changes).2 = Except.error e) :
    (batchSaveChanges st changes).1 = st := by
  unfold batchSaveChanges at h ⊢
  cases hrun : runChanges st changes with
  | ok p =>
    obtain ⟨st1, results⟩ := p
    rw [hrun] at h
    simp at h
  | error e2 => rfl

/-- Witness for C1: over `exA`, the 3-operation batch `batchA` (two moves
that individually succeed, then a create rejected by the uniqueness
backstop) fails, and the store is left unchanged. -/
theorem batchSaveChanges_atomic_witness :
    (batchSaveChanges exA batchA).2 = Except.error uniqueViolation ∧
    (batchSaveChanges exA batchA).1 = exA :=
  ⟨rfl, batchSaveChanges_atomic exA batchA uniqueViolation rfl⟩

/-- C7: for every verdict returned by `validateSessionCreate` or
`validateSessionMove`, `valid` is true exactly when the conflicts list is
empty; the warnings list plays no role in `valid`. -/
theorem verdict_valid_iff_no_conflicts :
    (∀ st classId b d r sem v, validateSessionCreate st classId b d r sem = Except.ok v →
      (v.valid = true ↔ v.conflicts = [])) ∧
    (∀ st sid b d r sem v, validateSessionMove st sid b d r sem = Except.ok v →
      (v.valid = true ↔ v.conflicts = [])) := by
  constructor
  · intro st classId b d r sem v h
    obtain ⟨cls, tb, -, -, hv⟩ := validateSessionCreate_ok_inv h
    subst hv
    dsimp only [createVerdict]
    simp [List.length_eq_zero]
  · intro st sid b d r sem v h
    obtain ⟨s, tb, -, -, hv⟩ := validateSessionMove_ok_inv h
    subst hv
    dsimp only [moveVerdict]
    simp [List.length_eq_zero]

/-- Witness for C7: the verdict of a concrete dry-run creation over `exB`
satisfies the equivalence. -/
theorem verdict_valid_iff_no_conflicts_witness :
    (({ valid := true, conflicts := [], warnings := [] } : ValidationResult).valid = true ↔
      ({ valid := true, conflicts := [], warnings := [] } : ValidationResult).conflicts = []) :=
  verdict_valid_iff_no_conflicts.1 exB 2 1 1 2 1
    { valid := true, conflicts := [], warnings := [] } rfl

theorem sessionSlotMatch_ne {st : Store} {lsid excl b d sem : Nat}
    (h : sessionSlotMatch st lsid excl b d sem = true) : lsid ≠ excl := by
  unfold sessionSlotMatch at h
  rw [List.any_eq_true] at h
  obtain ⟨s, -, hs⟩ := h
  simp only [Bool.and_eq_true, beq_iff_eq, Bool.not_eq_true', beq_eq_false_iff_ne] at hs
  obtain ⟨⟨⟨⟨hid, hne⟩, -⟩, -⟩, -⟩ := hs
  exact hid ▸ hne

theorem moveTeacherConflicts_not_self (st : Store) (sid b d sem : Nat) (tb : Block) :
    ∀ c ∈ moveTeacherConflicts st sid b d sem tb, c.relatedSessionId ≠ some sid := by
  intro c hc
  unfold moveTeacherConflicts at hc
  rw [List.mem_flatMap] at hc
  obtain ⟨ta, -, hcta⟩ := hc
  rw [List.mem_append] at hcta
  rcases hcta with h | h
  · split at h
    case h_1 l hfind =>
      rw [List.mem_singleton] at h
      subst h
      have hp := List.find?_some hfind
      rw [Bool.and_eq_true] at hp
      have hne := sessionSlotMatch_ne hp.2
      simp only [ne_eq, Option.some.injEq]
      exact hne
    case h_2 => simp at h
  · split at h
    case h_1 du hfind =>
      rw [List.mem_singleton] at h
      subst h
      simp
    case h_2 => simp at h

theorem moveRoomConflicts_not_self (st : Store) (sid b d r sem : Nat) (tb : Block) :
    ∀ c ∈ moveRoomConflicts st sid b d r sem tb, c.relatedSessionId ≠ some sid := by
  intro c hc
  unfold moveRoomConflicts at hc
  split at hc
  case h_1 rc hfind =>
    rw [List.mem_singleton] at hc
    subst hc
    have hp := List.find?_some hfind
    simp only [Bool.and_eq_true, Bool.not_eq_true', beq_eq_false_iff_ne] at hp
    simp only [ne_eq, Option.some.injEq]
    exact hp.1.1.1.1
  case h_2 => simp at hc

theorem moveGradeConflicts_not_self (st : Store) (sid b d sem : Nat) (tb : Block) (g : Option Nat) :
    ∀ c ∈ moveGradeConflicts st sid b d sem tb g, c.relatedSessionId ≠ some sid := by
  intro c hc
  unfold moveGradeConflicts at hc
  split at hc
  case h_2 => simp at hc
  case h_1 g2 =>
    split at hc
    case h_2 => simp at hc
    case h_1 hc2 hfind =>
      rw [List.mem_singleton] at hc
      subst hc
      have hp := List.find?_some hfind
      simp only [Bool.and_eq_true, Bool.not_eq_true', beq_eq_false_iff_ne] at hp
      simp only [ne_eq, Option.some.injEq]
      exact hp.1.1.1.1

theorem sharedGradeConflicts_not_self (st : Store) (b d sem : Nat) (tb : Block)
    (g : Option Nat) (sid : Nat) :
    ∀ c ∈ sharedGradeConflicts st b d sem tb g (some sid), c.relatedSessionId ≠ some sid := by
  intro c hc
  unfold sharedGradeConflicts at hc
  rw [List.mem_flatMap] at hc
  obtain ⟨s, hs, hcs⟩ := hc
  rw [List.mem_filter] at hs
  have hsid : s.id ≠ sid := by
    have := hs.2
    simp only [notExcluded, Bool.and_eq_true, Bool.not_eq_true', beq_eq_false_iff_ne] at this
    exact this.1.1.1
  split at hcs
  case h_1 => simp at hcs
  case h_2 sc hsc =>
    rw [List.mem_append] at hcs
    rcases hcs with h | h <;>
    · split at h
      · rw [List.mem_singleton] at h
        subst h
        simp only [ne_eq, Option.some.injEq]
        exact hsid
      · simp at h

theorem duplicateWarnings_not_self (st : Store) (d sem classId : Nat) (sid : Nat) (cn : String) :
    ∀ w ∈ duplicateWarnings st d sem classId (some sid) cn, w.relatedSessionId ≠ some sid := by
  intro w hw
  dsimp only [duplicateWarnings] at hw
  split at hw
  case isTrue hlen =>
    rw [List.mem_singleton] at hw
    subst hw
    simp only [ne_eq]
    cases hh : (duplicateSessions st d sem classId (some sid)).head? with
    | none => simp [hh]
    | some s0 =>
      have hmem : s0 ∈ duplicateSessions st d sem classId (some sid) :=
        List.mem_of_mem_head? (Option.mem_def.mpr hh)
      unfold duplicateSessions at hmem
      rw [List.mem_filter] at hmem
      have : s0.id ≠ sid := by
        have := hmem.2
        simp only [notExcluded, Bool.and_eq_true, Bool.not_eq_true', beq_eq_false_iff_ne] at this
        exact this.1.1.1
      simp [hh, this]
  case isFalse => simp at hw

/-- C5: validating a move of session S to its own current
(Block, Day, Room) never reports a conflict or warning whose colliding
session is S itself — S is excluded from the teacher, room, same-grade,
shared-vs-grade-specific, and duplicate-day scans. -/
theorem move_self_exclusion (st : Store) (sid b d r sem : Nat) (s : ClassSession)
    (v : ValidationResult)
    (_hs : lookupSession st sid = some s)
    (_hb : s.blockId = b) (_hd : s.dayOfWeek = d) (_hr : s.roomId = r)
    (hok : validateSessionMove st sid b d r sem = Except.ok v) :
    (∀ c ∈ v.conflicts, c.relatedSessionId ≠ some sid) ∧
    (∀ w ∈ v.warnings, w.relatedSessionId ≠ some sid) := by
  obtain ⟨s2, tb, hs2, hb2, hv⟩ := validateSessionMove_ok_inv hok
  subst hv
  constructor
  · intro c hc
    dsimp only [moveVerdict, moveConflictList] at hc
    simp only [List.mem_append] at hc
    rcases hc with ((((h | h) | h) | h) | h)
    · exact moveTeacherConflicts_not_self st sid b d sem tb c h
    · exact moveRoomConflicts_not_self st sid b d r sem tb c h
    · -- duty scans never carry a related session id
      unfold createRoomDutyConflicts at h
      split at h
      · rw [List.mem_singleton] at h; subst h; simp
      · simp at h
    · exact moveGradeConflicts_not_self st sid b d sem tb _ c h
    · exact sharedGradeConflicts_not_self st b d sem tb _ sid c h
  · intro w hw
    dsimp only [moveVerdict] at hw
    exact duplicateWarnings_not_self st d sem s2.classId sid _ w hw

/-- Witness for C5: moving session 40 of `exE` onto its own slot yields a
verdict with two conflicts and a warning, none of which reference
session 40. -/
theorem move_self_exclusion_witness :
    (∀ c ∈ vE.conflicts, c.relatedSessionId ≠ some 40) ∧
    (∀ w ∈ vE.warnings, w.relatedSessionId ≠ some 40) :=
  move_self_exclusion exE 40 1 1 1 1 ⟨40, 10, 1, 1, 1, 1, none⟩ vE rfl rfl rfl rfl rfl

/-- Counterexample for C2: over `exB`, teacher 1 (the only teacher, hence
whatever teacher the caller intends to assign) teaches session 1 occupying
(block 1, day 1, semester 1), yet validating the creation of class 2 at
(block 1, day 1, room 2, semester 1) returns a verdict with no conflict at
all — `validateSessionCreate` performs no teacher double-booking check. -/
theorem create_validation_has_no_teacher_check :
    exB.sessionTeachers = [⟨1, 1, "Primary"⟩] ∧
    lookupSession exB 1 = some ⟨1, 1, 1, 1, 1, 1, none⟩ ∧
    validateSessionCreate exB 2 1 1 2 1 =
      Except.ok { valid := true, conflicts := [], warnings := [] } :=
  ⟨rfl, rfl, rfl⟩

/-- C2 (amended): teacher double-booking is detected by move validation
only — for every teacher already assigned to the session being moved, if
any other ClassSession in the target (Block, Day, Semester) includes that
teacher, or that teacher has a Duty there, the verdict contains a conflict
of type teacher; creation validation takes no intended teacher and performs
no teacher check. -/
theorem exists_mem_append_left {α : Type} {P : α → Prop} {l1 l2 : List α}
    (h : ∃ x ∈ l1, P x) : ∃ x ∈ l1 ++ l2, P x := by
  obtain ⟨x, hx, hp⟩ := h
  exact ⟨x, List.mem_append_left _ hx, hp⟩

theorem exists_mem_append_right {α : Type} {P : α → Prop} {l1 l2 : List α}
    (h : ∃ x ∈ l2, P x) : ∃ x ∈ l1 ++ l2, P x := by
  obtain ⟨x, hx, hp⟩ := h
  exact ⟨x, List.mem_append_right _ hx, hp⟩

theorem exists_mem_flatMap {α β : Type} {P : β → Prop} {l : List α} {f : α → List β} {a : α}
    (ha : a ∈ l) (h : ∃ x ∈ f a, P x) : ∃ x ∈ l.flatMap f, P x := by
  obtain ⟨x, hx, hp⟩ := h
  exact ⟨x, List.mem_flatMap.mpr ⟨a, ha, hx⟩, hp⟩

theorem move_teacher_double_booking (st : Store) (sid b d r sem : Nat) (v : ValidationResult)
    (hok : validateSessionMove st sid b d r sem = Except.ok v)
    (ta : SessionTeacher) (hta : ta ∈ st.sessionTeachers) (htaSid : ta.classSessionId = sid)
    (hbusy :
      (∃ l ∈ st.sessionTeachers, l.teacherId = ta.teacherId ∧
        sessionSlotMatch st l.classSessionId sid b d sem = true) ∨
      (∃ du ∈ st.duties, du.teacherId = ta.teacherId ∧ du.blockId = b ∧
        du.dayOfWeek = d ∧ du.semesterId = sem)) :
    ∃ c ∈ v.conflicts, c.type = ConflictType.teacher := by
  obtain ⟨s2, tb, -, -, hv⟩ := validateSessionMove_ok_inv hok
  subst hv
  have hta2 : ta ∈ st.sessionTeachers.filter (fun t => t.classSessionId == sid) :=
    List.mem_filter.mpr ⟨hta, by simp [htaSid]⟩
  have hmem : ∃ c ∈ moveTeacherConflicts st sid b d sem tb, c.type = ConflictType.teacher := by
    unfold moveTeacherConflicts
    refine exists_mem_flatMap hta2 ?_
    rcases hbusy with ⟨l, hl, hlt, hlm⟩ | ⟨du, hdu, hdt, hdb, hdd, hds⟩
    · have hsome : (st.sessionTeachers.find? (fun l2 => l2.teacherId == ta.teacherId &&
          sessionSlotMatch st l2.classSessionId sid b d sem)).isSome := by
        rw [List.find?_isSome]
        exact ⟨l, hl, by simp [hlt, hlm]⟩
      obtain ⟨l0, hl0⟩ := Option.isSome_iff_exists.mp hsome
      refine exists_mem_append_left ?_
      rw [hl0]
      exact ⟨_, List.mem_singleton_self _, rfl⟩
    · have hsome : (st.duties.find? (fun du2 => du2.teacherId == ta.teacherId &&
          du2.blockId == b && du2.dayOfWeek == d && du2.semesterId == sem)).isSome := by
        rw [List.find?_isSome]
        exact ⟨du, hdu, by simp [hdt, hdb, hdd, hds]⟩
      obtain ⟨du0, hdu0⟩ := Option.isSome_iff_exists.mp hsome
      refine exists_mem_append_right ?_
      rw [hdu0]
      exact ⟨_, List.mem_singleton_self _, rfl⟩
  obtain ⟨c, hc, hct⟩ := hmem
  refine ⟨c, ?_, hct⟩
  dsimp only [moveVerdict, moveConflictList]
  simp only [List.mem_append]
  exact Or.inl (Or.inl (Or.inl (Or.inl hc)))

/-- Witness for C2 (amended): moving session 2 of `exC` into
(block 1, day 1, room 2, semester 1), where teacher 1 also teaches
session 1, yields a teacher conflict. -/
theorem move_teacher_double_booking_witness :
    ∃ c ∈ vC.conflicts, c.type = ConflictType.teacher :=
  move_teacher_double_booking exC 2 1 1 2 1 vC rfl ⟨2, 1, "Primary"⟩ (by decide) rfl
    (Or.inl ⟨⟨1, 1, "Primary"⟩, by decide, rfl, rfl⟩)

/-- Counterexample for C3: over `exD` the rooms table is empty, so the
room id 5 passed to validation does not exist; yet `validateSessionCreate`
succeeds and returns a verdict instead of failing with a NotFound error —
the referenced Room is never looked up. -/
theorem create_validation_missing_room_tolerated :
    exD.rooms = [] ∧
    validateSessionCreate exD 1 1 1 5 1 =
      Except.ok { valid := true, conflicts := [], warnings := [] } :=
  ⟨rfl, rfl⟩

/-- C3 (amended): during dry-run validation only NotFound errors are ever
thrown — a missing Class (create) or session (move) and a missing target
Block each produce NotFound; but a missing Room is not detected, validation
proceeds and returns a verdict; and validation never fails with an error
because of a scheduling conflict — conflicts are returned only as data in
the verdict. -/
theorem validation_errors_only_notfound (st : Store) (cid sid b d r sem : Nat) :
    (∀ e, validateSessionCreate st cid b d r sem = Except.error e → e.code = ErrCode.NOT_FOUND) ∧
    (∀ e, validateSessionMove st sid b d r sem = Except.error e → e.code = ErrCode.NOT_FOUND) ∧
    (lookupClass st cid = none →
      validateSessionCreate st cid b d r sem =
        Except.error { code := ErrCode.NOT_FOUND, message := "Class not found" }) ∧
    (lookupSession st sid = none →
      validateSessionMove st sid b d r sem =
        Except.error { code := ErrCode.NOT_FOUND, message := "Class session not found" }) ∧
    ((lookupClass st cid).isSome → lookupBlock st b = none →
      validateSessionCreate st cid b d r sem =
        Except.error { code := ErrCode.NOT_FOUND, message := "Target block not found" }) ∧
    ((lookupSession st sid).isSome → lookupBlock st b = none →
      validateSessionMove st sid b d r sem =
        Except.error { code := ErrCode.NOT_FOUND, message := "Target block not found" }) ∧
    ((lookupClass st cid).isSome → (lookupBlock st b).isSome →
      ∃ v, validateSessionCreate st cid b d r sem = Except.ok v) ∧
    ((lookupSession st sid).isSome → (lookupBlock st b).isSome →
      ∃ v, validateSessionMove st sid b d r sem = Except.ok v) := by
  unfold validateSessionCreate validateSessionMove
  cases hc : lookupClass st cid <;> cases hs : lookupSession st sid <;>
    cases hb : lookupBlock st b <;>
      simp

/-- Witness for C3 (amended): over `exD`, with class 1 and block 1 present
and room 5 absent, creation validation returns a verdict, not an error. -/
theorem validation_errors_only_notfound_witness :
    ∃ v, validateSessionCreate exD 1 1 1 5 1 = Except.ok v :=
  (validation_errors_only_notfound exD 1 1 1 1 5 1).2.2.2.2.2.2.1 (by rfl) (by rfl)

theorem createRoomConflicts_nil {st : Store} {b d r sem : Nat} {tb : Block}
    (h : ∀ s ∈ st.sessions, ¬(s.blockId = b ∧ s.dayOfWeek = d ∧ s.semesterId = sem)) :
    createRoomConflicts st b d r sem tb = [] := by
  unfold createRoomConflicts
  have hnone : st.sessions.find? (fun s =>
      s.blockId == b && s.dayOfWeek == d && s.roomId == r && s.semesterId == sem) = none := by
    refine List.find?_eq_none.mpr (fun s hs hp => ?_)
    simp only [Bool.and_eq_true, beq_iff_eq] at hp
    exact h s hs ⟨hp.1.1.1, hp.1.1.2, hp.2⟩
  rw [hnone]

theorem createRoomDutyConflicts_nil {st : Store} {b d r sem : Nat} {tb : Block}
    (h : ∀ du ∈ st.duties, ¬(du.blockId = b ∧ du.dayOfWeek = d ∧ du.semesterId = sem)) :
    createRoomDutyConflicts st b d r sem tb = [] := by
  unfold createRoomDutyConflicts
  have hnone : st.duties.find? (fun du =>
      du.blockId == b && du.dayOfWeek == d && du.roomId == r && du.semesterId == sem) = none := by
    refine List.find?_eq_none.mpr (fun du hdu hp => ?_)
    simp only [Bool.and_eq_true, beq_iff_eq] at hp
    exact h du hdu ⟨hp.1.1.1, hp.1.1.2, hp.2⟩
  rw [hnone]

theorem createGradeConflicts_nil {st : Store} {b d sem : Nat} {tb : Block} {g : Option Nat}
    (h : ∀ s ∈ st.sessions, ¬(s.blockId = b ∧ s.dayOfWeek = d ∧ s.semesterId = sem)) :
    createGradeConflicts st b d sem tb g = [] := by
  unfold createGradeConflicts
  split
  · split
    · next hc hfind =>
        have hp := List.find?_some hfind
        have hmem := List.mem_of_find?_eq_some hfind
        simp only [Bool.and_eq_true, beq_iff_eq] at hp
        exact absurd ⟨hp.1.1.1, hp.1.1.2, hp.1.2⟩ (h _ hmem)
    · rfl
  · rfl

theorem sharedGradeConflicts_nil {st : Store} {b d sem : Nat} {tb : Block} {g : Option Nat}
    {excl : Option Nat}
    (h : ∀ s ∈ st.sessions, notExcluded excl s.id = true →
      ¬(s.blockId = b ∧ s.dayOfWeek = d ∧ s.semesterId = sem)) :
    sharedGradeConflicts st b d sem tb g excl = [] := by
  dsimp only [sharedGradeConflicts]
  have hfil : st.sessions.filter (fun s =>
      notExcluded excl s.id &&
      s.blockId == b && s.dayOfWeek == d && s.semesterId == sem) = [] := by
    rw [List.filter_eq_nil_iff]
    intro s hs
    intro hp
    simp only [Bool.and_eq_true, beq_iff_eq] at hp
    exact h s hs hp.1.1.1 ⟨hp.1.1.2, hp.1.2, hp.2⟩
  rw [hfil]
  rfl

theorem sessionSlotMatch_false {st : Store} {sid b d sem : Nat}
    (h : ∀ s2 ∈ st.sessions, s2.id ≠ sid → ¬(s2.blockId = b ∧ s2.dayOfWeek = d ∧ s2.semesterId = sem)) :
    ∀ x, sessionSlotMatch st x sid b d sem = false := by
  intro x
  rw [← Bool.not_eq_true]
  unfold sessionSlotMatch
  rw [List.any_eq_true]
  rintro ⟨s2, hs2, hp⟩
  simp only [Bool.and_eq_true, beq_iff_eq, Bool.not_eq_true', beq_eq_false_iff_ne] at hp
  exact h s2 hs2 hp.1.1.1.2 ⟨hp.1.1.2, hp.1.2, hp.2⟩

theorem moveTeacherConflicts_nil {st : Store} {sid b d sem : Nat} {tb : Block}
    (hses : ∀ s2 ∈ st.sessions, s2.id ≠ sid → ¬(s2.blockId = b ∧ s2.dayOfWeek = d ∧ s2.semesterId = sem))
    (hdut : ∀ du ∈ st.duties, ¬(du.blockId = b ∧ du.dayOfWeek = d ∧ du.semesterId = sem)) :
    moveTeacherConflicts st sid b d sem tb = [] := by
  unfold moveTeacherConflicts
  rw [List.flatMap_eq_nil_iff]
  intro ta _
  have h1 : st.sessionTeachers.find? (fun l => l.teacherId == ta.teacherId &&
      sessionSlotMatch st l.classSessionId sid b d sem) = none := by
    refine List.find?_eq_none.mpr (fun l _ hp => ?_)
    rw [Bool.and_eq_true] at hp
    rw [sessionSlotMatch_false hses l.classSessionId] at hp
    exact Bool.false_ne_true hp.2
  have h2 : st.duties.find? (fun du => du.teacherId == ta.teacherId &&
      du.blockId == b && du.dayOfWeek == d && du.semesterId == sem) = none := by
    refine List.find?_eq_none.mpr (fun du hdu hp => ?_)
    simp only [Bool.and_eq_true, beq_iff_eq] at hp
    exact hdut du hdu ⟨hp.1.1.2, hp.1.2, hp.2⟩
  rw [h1, h2]
  rfl

theorem moveRoomConflicts_nil {st : Store} {sid b d r sem : Nat} {tb : Block}
    (h : ∀ s2 ∈ st.sessions, s2.id ≠ sid → ¬(s2.blockId = b ∧ s2.dayOfWeek = d ∧ s2.semesterId = sem)) :
    moveRoomConflicts st sid b d r sem tb = [] := by
  unfold moveRoomConflicts
  have hnone : st.sessions.find? (fun s =>
      !(s.id == sid) &&
      s.blockId == b && s.dayOfWeek == d &&
      s.roomId == r && s.semesterId == sem) = none := by
    refine List.find?_eq_none.mpr (fun s hs hp => ?_)
    simp only [Bool.and_eq_true, beq_iff_eq, Bool.not_eq_true', beq_eq_false_iff_ne] at hp
    exact h s hs hp.1.1.1.1 ⟨hp.1.1.1.2, hp.1.1.2, hp.2⟩
  rw [hnone]

theorem moveGradeConflicts_nil {st : Store} {sid b d sem : Nat} {tb : Block} {g : Option Nat}
    (h : ∀ s2 ∈ st.sessions, s2.id ≠ sid → ¬(s2.blockId = b ∧ s2.dayOfWeek = d ∧ s2.semesterId = sem)) :
    moveGradeConflicts st sid b d sem tb g = [] := by
  unfold moveGradeConflicts
  split
  · split
    · next hc hfind =>
        have hp := List.find?_some hfind
        have hmem := List.mem_of_find?_eq_some hfind
        simp only [Bool.and_eq_true, beq_iff_eq, Bool.not_eq_true', beq_eq_false_iff_ne] at hp
        exact absurd ⟨hp.1.1.1.2, hp.1.1.2, hp.1.2⟩ (h _ hmem hp.1.1.1.1)
    · rfl
  · rfl

theorem duplicateWarnings_pos {st : Store} {d sem cid : Nat} {excl : Option Nat} {cn : String}
    (h : duplicateSessions st d sem cid excl ≠ []) :
    duplicateWarnings st d sem cid excl cn =
      [{ type := WarningType.duplicate_class,
         message := cn ++ " is already scheduled " ++
           toString (duplicateSessions st d sem cid excl).length ++ " time(s) on " ++
           dayName d ++ ".",
         relatedSessionId := (duplicateSessions st d sem cid excl).head?.map ClassSession.id }] := by
  dsimp only [duplicateWarnings]
  rw [if_pos (List.length_pos.mpr h)]

/-- C8: the duplicate-same-day check is a non-blocking warning: whenever
the same Class has at least one other session (excluding the moved session,
for a move) on the target day within the semester, the verdict carries a
duplicate_class warning whose message names the count; and this situation
alone never blocks — with the target (block, day, semester) slot otherwise
free of sessions and duties, the verdict has no conflicts and is valid. -/
theorem duplicate_day_warning_nonblocking :
    (∀ st cid b d r sem v cls, validateSessionCreate st cid b d r sem = Except.ok v →
      lookupClass st cid = some cls →
      ((duplicateSessions st d sem cid none ≠ [] →
        v.warnings =
          [{ type := WarningType.duplicate_class,
             message := cls.name ++ " is already scheduled " ++
               toString (duplicateSessions st d sem cid none).length ++ " time(s) on " ++
               dayName d ++ ".",
             relatedSessionId := (duplicateSessions st d sem cid none).head?.map ClassSession.id }]) ∧
       ((∀ s ∈ st.sessions, ¬(s.blockId = b ∧ s.dayOfWeek = d ∧ s.semesterId = sem)) →
        (∀ du ∈ st.duties, ¬(du.blockId = b ∧ du.dayOfWeek = d ∧ du.semesterId = sem)) →
        v.conflicts = [] ∧ v.valid = true))) ∧
    (∀ st sid b d r sem v s cls, validateSessionMove st sid b d r sem = Except.ok v →
      lookupSession st sid = some s → lookupClass st s.classId = some cls →
      ((duplicateSessions st d sem s.classId (some sid) ≠ [] →
        v.warnings =
          [{ type := WarningType.duplicate_class,
             message := cls.name ++ " is already scheduled " ++
               toString (duplicateSessions st d sem s.classId (some sid)).length ++ " time(s) on " ++
               dayName d ++ ".",
             relatedSessionId :=
               (duplicateSessions st d sem s.classId (some sid)).head?.map ClassSession.id }]) ∧
       ((∀ s2 ∈ st.sessions, s2.id ≠ sid →
          ¬(s2.blockId = b ∧ s2.dayOfWeek = d ∧ s2.semesterId = sem)) →
        (∀ du ∈ st.duties, ¬(du.blockId = b ∧ du.dayOfWeek = d ∧ du.semesterId = sem)) →
        v.conflicts = [] ∧ v.valid = true))) := by
  constructor
  · intro st cid b d r sem v cls hok hcls
    obtain ⟨cls2, tb, hc2, hb2, hv⟩ := validateSessionCreate_ok_inv hok
    rw [hcls] at hc2
    obtain rfl : cls = cls2 := Option.some.inj hc2
    subst hv
    constructor
    · intro hne
      dsimp only [createVerdict]
      exact duplicateWarnings_pos hne
    · intro hses hdut
      have h0 : createConflictList st b d r sem cls tb = [] := by
        unfold createConflictList
        rw [createRoomConflicts_nil hses, createRoomDutyConflicts_nil hdut,
          createGradeConflicts_nil hses,
          sharedGradeConflicts_nil (fun s hs _ => hses s hs)]
        rfl
      dsimp only [createVerdict]
      rw [h0]
      exact ⟨rfl, rfl⟩
  · intro st sid b d r sem v s cls hok hs hcls
    obtain ⟨s2, tb, hs2, hb2, hv⟩ := validateSessionMove_ok_inv hok
    rw [hs] at hs2
    obtain rfl : s = s2 := Option.some.inj hs2
    subst hv
    constructor
    · intro hne
      dsimp only [moveVerdict]
      rw [hcls]
      exact duplicateWarnings_pos hne
    · intro hses hdut
      have h0 : moveConflictList st sid b d r sem s tb = [] := by
        unfold moveConflictList
        dsimp only
        rw [moveTeacherConflicts_nil hses hdut, moveRoomConflicts_nil hses,
          createRoomDutyConflicts_nil hdut, moveGradeConflicts_nil hses,
          sharedGradeConflicts_nil (fun s3 hs3 hne3 =>
            hses s3 hs3 (by simpa [notExcluded] using hne3))]
        rfl
      dsimp only [moveVerdict]
      rw [h0]
      exact ⟨rfl, rfl⟩

/-- Witness for C8: over `exH`, creating class 1 at (block 2, day 1,
room 1, semester 1) — class 1 already meets on day 1 in block 1 — yields an
empty conflicts list, a valid verdict, and a duplicate_class warning whose
message names the count 1. -/
theorem duplicate_day_warning_nonblocking_witness :
    (({ valid := true, conflicts := [],
        warnings :=
          [{ type := WarningType.duplicate_class,
             message := "Math10 is already scheduled 1 time(s) on Monday.",
             relatedSessionId := some 31 }] } : ValidationResult).warnings =
      [{ type := WarningType.duplicate_class,
         message := "Math10" ++ " is already scheduled " ++
           toString (duplicateSessions exH 1 1 1 none).length ++ " time(s) on " ++
           dayName 1 ++ ".",
         relatedSessionId := (duplicateSessions exH 1 1 1 none).head?.map ClassSession.id }]) :=
  (duplicate_day_warning_nonblocking.1 exH 1 2 1 1 1
      { valid := true, conflicts := [],
        warnings :=
          [{ type := WarningType.duplicate_class,
             message := "Math10 is already scheduled 1 time(s) on Monday.",
             relatedSessionId := some 31 }] }
      { id := 1, code := "M10", name := "Math10", sectionId := 1, gradeId := some 1, semesterId := 1 }
      rfl rfl).1 (by decide)

theorem createRoomConflicts_types {st : Store} {b d r sem : Nat} {tb : Block} :
    ∀ c ∈ createRoomConflicts st b d r sem tb, c.type = ConflictType.room := by
  intro c hc
  unfold createRoomConflicts at hc
  split at hc
  · rw [List.mem_singleton] at hc
    subst hc
    rfl
  · simp at hc

theorem createRoomDutyConflicts_types {st : Store} {b d r sem : Nat} {tb : Block} :
    ∀ c ∈ createRoomDutyConflicts st b d r sem tb, c.type = ConflictType.room := by
  intro c hc
  unfold createRoomDutyConflicts at hc
  split at hc
  · rw [List.mem_singleton] at hc
    subst hc
    rfl
  · simp at hc

theorem moveTeacherConflicts_types {st : Store} {sid b d sem : Nat} {tb : Block} :
    ∀ c ∈ moveTeacherConflicts st sid b d sem tb, c.type = ConflictType.teacher := by
  intro c hc
  unfold moveTeacherConflicts at hc
  rw [List.mem_flatMap] at hc
  obtain ⟨ta, -, hcta⟩ := hc
  rw [List.mem_append] at hcta
  rcases hcta with h | h <;>
  · split at h
    · rw [List.mem_singleton] at h
      subst h
      rfl
    · simp at h

theorem moveRoomConflicts_types {st : Store} {sid b d r sem : Nat} {tb : Block} :
    ∀ c ∈ moveRoomConflicts st sid b d r sem tb, c.type = ConflictType.room := by
  intro c hc
  unfold moveRoomConflicts at hc
  split at hc
  · rw [List.mem_singleton] at hc
    subst hc
    rfl
  · simp at hc

theorem sharedGradeConflicts_mem {st : Store} {b d sem : Nat} {tb : Block} {g : Option Nat}
    {excl : Option Nat} {s2 : ClassSession} {cls2 : Cls}
    (hs2 : s2 ∈ st.sessions)
    (hex : notExcluded excl s2.id = true)
    (hslot : s2.blockId = b ∧ s2.dayOfWeek = d ∧ s2.semesterId = sem)
    (hcls2 : lookupClass st s2.classId = some cls2)
    (hmis : (g.isSome ∧ cls2.gradeId = none) ∨ (g = none ∧ cls2.gradeId.isSome)) :
    ∃ c ∈ sharedGradeConflicts st b d sem tb g excl,
      c.type = ConflictType.homeroom ∧ c.relatedSessionId = some s2.id := by
  dsimp only [sharedGradeConflicts]
  have hpred : (notExcluded excl s2.id &&
      s2.blockId == b && s2.dayOfWeek == d && s2.semesterId == sem) = true := by
    obtain ⟨h1, h2, h3⟩ := hslot
    simp only [Bool.and_eq_true, beq_iff_eq]
    exact ⟨⟨⟨hex, h1⟩, h2⟩, h3⟩
  refine exists_mem_flatMap (List.mem_filter.mpr ⟨hs2, hpred⟩) ?_
  simp only [hcls2]
  rcases hmis with ⟨hg, hc2⟩ | ⟨hg, hc2⟩
  · have hcond : (g.isSome && cls2.gradeId.isNone) = true := by
      simp [hg, hc2]
    rw [if_pos hcond]
    exact exists_mem_append_left ⟨_, List.mem_singleton_self _, rfl, rfl⟩
  · have hcond : (g.isNone && cls2.gradeId.isSome) = true := by
      simp [hg, hc2]
    rw [if_pos hcond]
    exact exists_mem_append_right ⟨_, List.mem_singleton_self _, rfl, rfl⟩

theorem sharedGradeConflicts_shared_nil {st : Store} {b d sem : Nat} {tb : Block}
    {excl : Option Nat}
    (hall : ∀ s2 ∈ st.sessions, notExcluded excl s2.id = true →
      (s2.blockId = b ∧ s2.dayOfWeek = d ∧ s2.semesterId = sem) →
      ∀ c2, lookupClass st s2.classId = some c2 → c2.gradeId = none) :
    sharedGradeConflicts st b d sem tb none excl = [] := by
  dsimp only [sharedGradeConflicts]
  rw [List.flatMap_eq_nil_iff]
  intro s2 hs2
  rw [List.mem_filter] at hs2
  obtain ⟨hmem, hpred⟩ := hs2
  simp only [Bool.and_eq_true, beq_iff_eq] at hpred
  have hslot : s2.blockId = b ∧ s2.dayOfWeek = d ∧ s2.semesterId = sem :=
    ⟨hpred.1.1.2, hpred.1.2, hpred.2⟩
  cases hlc : lookupClass st s2.classId with
  | none => simp [hlc]
  | some c2 =>
    have hc2 := hall s2 hmem hpred.1.1.1 hslot c2 hlc
    simp [hlc, hc2]

/-- C6: shared-vs-grade-specific exclusivity — within the same
(Block, Day, Semester), regardless of room, validating the placement of a
shared Class against a present grade-specific session (or vice versa)
yields a homeroom conflict naming each such colliding session, for creates
and for moves; and validating a shared Class against a slot holding only
shared-Class sessions yields no homeroom conflict at all. -/
theorem shared_grade_exclusivity :
    (∀ st cid b d r sem v cls s2 cls2,
      validateSessionCreate st cid b d r sem = Except.ok v →
      lookupClass st cid = some cls →
      s2 ∈ st.sessions →
      (s2.blockId = b ∧ s2.dayOfWeek = d ∧ s2.semesterId = sem) →
      lookupClass st s2.classId = some cls2 →
      ((cls.gradeId.isSome ∧ cls2.gradeId = none) ∨ (cls.gradeId = none ∧ cls2.gradeId.isSome)) →
      ∃ c ∈ v.conflicts, c.type = ConflictType.homeroom ∧ c.relatedSessionId = some s2.id) ∧
    (∀ st sid b d r sem v s cls s2 cls2,
      validateSessionMove st sid b d r sem = Except.ok v →
      lookupSession st sid = some s →
      lookupClass st s.classId = some cls →
      s2 ∈ st.sessions → s2.id ≠ sid →
      (s2.blockId = b ∧ s2.dayOfWeek = d ∧ s2.semesterId = sem) →
      lookupClass st s2.classId = some cls2 →
      ((cls.gradeId.isSome ∧ cls2.gradeId = none) ∨ (cls.gradeId = none ∧ cls2.gradeId.isSome)) →
      ∃ c ∈ v.conflicts, c.type = ConflictType.homeroom ∧ c.relatedSessionId = some s2.id) ∧
    (∀ st cid b d r sem v cls,
      validateSessionCreate st cid b d r sem = Except.ok v →
      lookupClass st cid = some cls →
      cls.gradeId = none →
      (∀ s2 ∈ st.sessions, (s2.blockId = b ∧ s2.dayOfWeek = d ∧ s2.semesterId = sem) →
        ∀ c2, lookupClass st s2.classId = some c2 → c2.gradeId = none) →
      ∀ c ∈ v.conflicts, c.type ≠ ConflictType.homeroom) ∧
    (∀ st sid b d r sem v s cls,
      validateSessionMove st sid b d r sem = Except.ok v →
      lookupSession st sid = some s →
      lookupClass st s.classId = some cls →
      cls.gradeId = none →
      (∀ s2 ∈ st.sessions, s2.id ≠ sid →
        (s2.blockId = b ∧ s2.dayOfWeek = d ∧ s2.semesterId = sem) →
        ∀ c2, lookupClass st s2.classId = some c2 → c2.gradeId = none) →
      ∀ c ∈ v.conflicts, c.type ≠ ConflictType.homeroom) := by
  refine ⟨?_, ?_, ?_, ?_⟩
  · intro st cid b d r sem v cls s2 cls2 hok hcls hs2 hslot hcls2 hmis
    obtain ⟨cls0, tb, hc0, hb0, hv⟩ := validateSessionCreate_ok_inv hok
    rw [hcls] at hc0
    obtain rfl : cls = cls0 := Option.some.inj hc0
    subst hv
    obtain ⟨c, hc, hp⟩ :=
      @sharedGradeConflicts_mem st b d sem tb cls.gradeId none s2 cls2 hs2 rfl hslot hcls2 hmis
    refine ⟨c, ?_, hp⟩
    dsimp only [createVerdict, createConflictList]
    simp only [List.mem_append]
    exact Or.inr hc
  · intro st sid b d r sem v s cls s2 cls2 hok hs hcls hs2 hne hslot hcls2 hmis
    obtain ⟨s0, tb, hs0, hb0, hv⟩ := validateSessionMove_ok_inv hok
    rw [hs] at hs0
    obtain rfl : s = s0 := Option.some.inj hs0
    subst hv
    have hg : (lookupClass st s.classId).bind Cls.gradeId = cls.gradeId := by
      rw [hcls]
      rfl
    obtain ⟨c, hc, hp⟩ :=
      @sharedGradeConflicts_mem st b d sem tb cls.gradeId (some sid) s2 cls2 hs2
        (by simp [notExcluded, hne]) hslot hcls2 hmis
    refine ⟨c, ?_, hp⟩
    dsimp only [moveVerdict, moveConflictList]
    rw [hg]
    simp only [List.mem_append]
    exact Or.inr hc
  · intro st cid b d r sem v cls hok hcls hshared hall c hc
    obtain ⟨cls0, tb, hc0, hb0, hv⟩ := validateSessionCreate_ok_inv hok
    rw [hcls] at hc0
    obtain rfl : cls = cls0 := Option.some.inj hc0
    subst hv
    dsimp only [createVerdict, createConflictList] at hc
    rw [hshared] at hc
    rw [sharedGradeConflicts_shared_nil (fun s2 h2 _ h3 => hall s2 h2 h3)] at hc
    simp only [List.mem_append] at hc
    rcases hc with ((h | h) | h) | h
    · rw [createRoomConflicts_types c h]
      intro hcon
      cases hcon
    · rw [createRoomDutyConflicts_types c h]
      intro hcon
      cases hcon
    · have hn : createGradeConflicts st b d sem tb (none : Option Nat) = [] := rfl
      rw [hn] at h
      simp at h
    · simp at h
  · intro st sid b d r sem v s cls hok hs hcls hshared hall c hc
    obtain ⟨s0, tb, hs0, hb0, hv⟩ := validateSessionMove_ok_inv hok
    rw [hs] at hs0
    obtain rfl : s = s0 := Option.some.inj hs0
    subst hv
    have hg : (lookupClass st s.classId).bind Cls.gradeId = (none : Option Nat) := by
      rw [hcls]
      simpa using hshared
    dsimp only [moveVerdict, moveConflictList] at hc
    rw [hg] at hc
    rw [sharedGradeConflicts_shared_nil
      (fun s2 h2 hbex h3 => hall s2 h2 (by simpa [notExcluded] using hbex) h3)] at hc
    simp only [List.mem_append] at hc
    rcases hc with (((h | h) | h) | h) | h
    · rw [moveTeacherConflicts_types c h]
      intro hcon
      cases hcon
    · rw [moveRoomConflicts_types c h]
      intro hcon
      cases hcon
    · rw [createRoomDutyConflicts_types c h]
      intro hcon
      cases hcon
    · have hn : moveGradeConflicts st sid b d sem tb (none : Option Nat) = [] := rfl
      rw [hn] at h
      simp at h
    · simp at h

/-- Witness for C6: over `exE`, creating the shared class 10 at
(block 1, day 1, room 3, semester 1) while the grade-specific session 41
occupies (block 1, day 1, room 2, semester 1) yields a homeroom conflict
referencing session 41. -/
theorem shared_grade_exclusivity_witness :
    ∃ c ∈ (createVerdict exE 10 1 1 3 1
        { id := 10, code := "ASM", name := "Assembly", sectionId := 1, gradeId := none, semesterId := 1 }
        ⟨1, "B1", 1⟩).conflicts,
      c.type = ConflictType.homeroom ∧ c.relatedSessionId = some 41 :=
  shared_grade_exclusivity.1 exE 10 1 1 3 1
    (createVerdict exE 10 1 1 3 1
      { id := 10, code := "ASM", name := "Assembly", sectionId := 1, gradeId := none, semesterId := 1 }
      ⟨1, "B1", 1⟩)
    { id := 10, code := "ASM", name := "Assembly", sectionId := 1, gradeId := none, semesterId := 1 }
    ⟨41, 11, 1, 1, 2, 1, none⟩
    { id := 11, code := "B10", name := "Bio10", sectionId := 1, gradeId := some 1, semesterId := 1 }
    rfl rfl (by decide) ⟨rfl, rfl, rfl⟩ rfl (Or.inr ⟨rfl, rfl⟩)

/-- C9: an update_teacher batch operation replaces all existing teacher
links of the session: afterwards the session has exactly one link, for the
supplied teacher with role Primary, whatever the number or roles of the
links before; links of other sessions are untouched. -/
theorem update_teacher_replaces_links (st : Store) (c : Change) (st2 : Store)
    (rs : List BatchResult) (t : Nat)
    (htype : c.type = ChangeType.update_teacher)
    (ht : c.teacherId = some t)
    (hok : batchStep st c = Except.ok (st2, rs)) :
    st2.sessionTeachers.filter (fun l => l.classSessionId == c.sessionId) =
      [{ classSessionId := c.sessionId, teacherId := t, role := "Primary" }] ∧
    st2.sessionTeachers.filter (fun l => !(l.classSessionId == c.sessionId)) =
      st.sessionTeachers.filter (fun l => !(l.classSessionId == c.sessionId)) := by
  obtain ⟨ty, sid0, b0, d0, r0, ci0, se0, h0, t0⟩ := c
  subst htype
  subst ht
  simp only [batchStep] at hok
  split at hok
  · simp at hok
  · simp only [Except.ok.injEq, Prod.mk.injEq] at hok
    obtain ⟨hst, -⟩ := hok
    subst hst
    simp only
    constructor
    · rw [List.filter_append, List.filter_filter]
      simp
    · rw [List.filter_append, List.filter_filter]
      simp

/-- Witness for C9: re-teachering session 1 of `exI` (which has a
Primary and an Assistant link) to teacher 9 leaves exactly the single
Primary link for teacher 9 on session 1. -/
theorem update_teacher_replaces_links_witness :
    ({ exI with sessionTeachers := [⟨2, 4, "Primary"⟩, ⟨1, 9, "Primary"⟩] } : Store).sessionTeachers.filter
        (fun l => l.classSessionId == 1) =
      [{ classSessionId := 1, teacherId := 9, role := "Primary" }] :=
  (update_teacher_replaces_links exI chgI
    { exI with sessionTeachers := [⟨2, 4, "Primary"⟩, ⟨1, 9, "Primary"⟩] }
    [{ type := ChangeType.update_teacher, id := 1 }] 9 rfl rfl rfl).1

/-- C10: frame effect of a batch move — an applied move rewrites only the
session's blockId, dayOfWeek and roomId; every session keeps its id,
classId, semesterId and homeroomId, teacher links and classes are
untouched, and the outcome is independent of the caller-supplied
`semesterId` field (the in-transaction grade check uses the session's own
semester). -/
theorem batch_move_frame (st : Store) (c : Change) (st2 : Store) (rs : List BatchResult)
    (htype : c.type = ChangeType.move)
    (hok : batchStep st c = Except.ok (st2, rs)) :
    st2.sessionTeachers = st.sessionTeachers ∧
    st2.classes = st.classes ∧
    st2.sessions = st.sessions.map (fun s =>
      if s.id == c.sessionId then
        { s with blockId := c.blockId.getD 0, dayOfWeek := c.dayOfWeek.getD 0,
                 roomId := c.roomId.getD 0 }
      else s) ∧
    (∀ x, batchStep st { c with semesterId := x } = batchStep st c) := by
  obtain ⟨ty, sid0, b0, d0, r0, ci0, se0, h0, t0⟩ := c
  subst htype
  have hsem : ∀ x, batchStep st ⟨ChangeType.move, sid0, b0, d0, r0, ci0, x, h0, t0⟩ =
      batchStep st ⟨ChangeType.move, sid0, b0, d0, r0, ci0, se0, h0, t0⟩ := by
    intro x
    rfl
  simp only [batchStep] at hok
  split at hok
  · simp at hok
  · split at hok
    · simp at hok
    · split at hok
      · simp at hok
      · split at hok
        · simp at hok
        · simp only [Except.ok.injEq, Prod.mk.injEq] at hok
          obtain ⟨hst, -⟩ := hok
          subst hst
          exact ⟨rfl, rfl, rfl, hsem⟩

/-- Witness for C10: applying the move `chgJ` to `exJ` relocates session 1
to (block 2, day 2, room 2) while keeping its class, semester, homeroom and
teacher links. -/
theorem batch_move_frame_witness :
    ({ exJ with sessions := [⟨1, 1, 2, 2, 2, 1, some 7⟩] } : Store).sessions =
      exJ.sessions.map (fun s =>
        if s.id == chgJ.sessionId then
          { s with blockId := chgJ.blockId.getD 0, dayOfWeek := chgJ.dayOfWeek.getD 0,
                   roomId := chgJ.roomId.getD 0 }
        else s) :=
  (batch_move_frame exJ chgJ
    { exJ with sessions := [⟨1, 1, 2, 2, 2, 1, some 7⟩] }
    [{ type := ChangeType.move, id := 1 }] rfl rfl).2.2.1

theorem batchStep_classes {st : Store} {c : Change} {st2 : Store} {rs : List BatchResult}
    (hok : batchStep st c = Except.ok (st2, rs)) : st2.classes = st.classes := by
  obtain ⟨ty, sid0, b0, d0, r0, ci0, se0, h0, t0⟩ := c
  cases ty <;> simp only [batchStep] at hok
  case move =>
    split at hok
    · simp at hok
    · split at hok
      · simp at hok
      · split at hok
        · simp at hok
        · split at hok
          · simp at hok
          · simp only [Except.ok.injEq, Prod.mk.injEq] at hok
            obtain ⟨hst, -⟩ := hok
            subst hst
            rfl
  case create =>
    split at hok
    · simp at hok
    · split at hok
      · simp only [Except.ok.injEq, Prod.mk.injEq] at hok
        obtain ⟨hst, -⟩ := hok
        subst hst
        rfl
      · split at hok
        · simp at hok
        · split at hok
          · simp at hok
          · simp only [Except.ok.injEq, Prod.mk.injEq] at hok
            obtain ⟨hst, -⟩ := hok
            subst hst
            rfl
  case update_room =>
    split at hok
    · simp at hok
    · split at hok
      · simp at hok
      · split at hok
        · simp at hok
        · simp only [Except.ok.injEq, Prod.mk.injEq] at hok
          obtain ⟨hst, -⟩ := hok
          subst hst
          rfl
  case update_teacher =>
    split at hok
    · simp at hok
    · simp only [Except.ok.injEq, Prod.mk.injEq] at hok
      obtain ⟨hst, -⟩ := hok
      subst hst
      rfl

theorem batchStep_results {st : Store} {c : Change} {st2 : Store} {rs : List BatchResult}
    (hok : batchStep st c = Except.ok (st2, rs))
    (hcreate : c.type = ChangeType.create → (lookupClass st (c.classId.getD 0)).isSome) :
    ∃ i, rs = [{ type := c.type, id := i }] ∧
      (c.type ≠ ChangeType.create → i = c.sessionId) := by
  obtain ⟨ty, sid0, b0, d0, r0, ci0, se0, h0, t0⟩ := c
  cases ty <;> simp only [batchStep] at hok
  case move =>
    split at hok
    · simp at hok
    · split at hok
      · simp at hok
      · split at hok
        · simp at hok
        · split at hok
          · simp at hok
          · simp only [Except.ok.injEq, Prod.mk.injEq] at hok
            obtain ⟨-, hrs⟩ := hok
            exact ⟨sid0, hrs.symm, fun _ => rfl⟩
  case create =>
    split at hok
    · simp at hok
    · split at hok
      · next hnone =>
        exfalso
        have := hcreate rfl
        rw [hnone] at this
        simp at this
      · split at hok
        · simp at hok
        · split at hok
          · simp at hok
          · simp only [Except.ok.injEq, Prod.mk.injEq] at hok
            obtain ⟨-, hrs⟩ := hok
            refine ⟨st.nextSessionId, hrs.symm, fun hne => absurd rfl hne⟩
  case update_room =>
    split at hok
    · simp at hok
    · split at hok
      · simp at hok
      · split at hok
        · simp at hok
        · simp only [Except.ok.injEq, Prod.mk.injEq] at hok
          obtain ⟨-, hrs⟩ := hok
          exact ⟨sid0, hrs.symm, fun _ => rfl⟩
  case update_teacher =>
    split at hok
    · simp at hok
    · simp only [Except.ok.injEq, Prod.mk.injEq] at hok
      obtain ⟨-, hrs⟩ := hok
      exact ⟨sid0, hrs.symm, fun _ => rfl⟩

theorem lookupClass_congr {st1 st2 : Store} (h : st1.classes = st2.classes) (i : Nat) :
    lookupClass st1 i = lookupClass st2 i := by
  unfold lookupClass
  rw [h]

theorem runChanges_results (changes : List Change) (st : Store) (st2 : Store)
    (rs : List BatchResult)
    (hok : runChanges st changes = Except.ok (st2, rs))
    (hcls : ∀ c ∈ changes, c.type = ChangeType.create →
      (lookupClass st (c.classId.getD 0)).isSome) :
    rs.map BatchResult.type = changes.map Change.type ∧
    ∀ p ∈ rs.zip changes, p.1.type = ChangeType.create ∨ p.1.id = p.2.sessionId := by
  induction changes generalizing st st2 rs with
  | nil =>
    unfold runChanges at hok
    simp only [Except.ok.injEq, Prod.mk.injEq] at hok
    obtain ⟨-, hrs⟩ := hok
    subst hrs
    exact ⟨rfl, by simp⟩
  | cons c cs ih =>
    unfold runChanges at hok
    split at hok
    · simp at hok
    · next st1 rs1 hstep =>
      split at hok
      · simp at hok
      · next st3 rest hrun =>
        simp only [Except.ok.injEq, Prod.mk.injEq] at hok
        obtain ⟨-, hrs⟩ := hok
        subst hrs
        obtain ⟨i, hrs1, hid⟩ := batchStep_results hstep
          (fun hty => hcls c (List.mem_cons_self c cs) hty)
        subst hrs1
        have hcls2 : ∀ c2 ∈ cs, c2.type = ChangeType.create →
            (lookupClass st1 (c2.classId.getD 0)).isSome := by
          intro c2 hc2 hty
          rw [lookupClass_congr (batchStep_classes hstep)]
          exact hcls c2 (List.mem_cons_of_mem c hc2) hty
        obtain ⟨hmap, hzip⟩ := ih st1 st3 rest hrun hcls2
        constructor
        · simp only [List.map_cons, List.map_append, hmap]
          rfl
        · intro p hp
          simp only [List.cons_append, List.nil_append, List.zip_cons_cons] at hp
          rcases List.mem_cons.mp hp with hp1 | hp1
          · subst hp1
            by_cases hct : c.type = ChangeType.create
            · exact Or.inl hct
            · exact Or.inr (hid hct)
          · exact hzip p hp1

/-- Counterexample for C4: over the empty store `exF`, a batch consisting
of the single create operation `chgF` whose class (id 7) does not exist
commits successfully with an empty results list — one operation, zero
result records (the create is silently skipped). -/
theorem batch_create_skip_cex :
    lookupClass exF 7 = none ∧
    (batchSaveChanges exF [chgF]).2 = Except.ok [] ∧
    [chgF].length = 1 :=
  ⟨rfl, rfl, rfl⟩

/-- C4 (amended): for every batch that commits successfully, the returned
list contains one result record per operation in input order — each with
the operation's type, and with the operation's session id for non-create
operations — except that a create operation whose classId references no
existing class is silently skipped and contributes no result record. -/
theorem batch_results_per_operation (st : Store) (changes : List Change)
    (results : List BatchResult)
    (hok : (batchSaveChanges st changes).2 = Except.ok results)
    (hcls : ∀ c ∈ changes, c.type = ChangeType.create →
      (lookupClass st (c.classId.getD 0)).isSome) :
    results.map BatchResult.type = changes.map Change.type ∧
    ∀ p ∈ results.zip changes, p.1.type = ChangeType.create ∨ p.1.id = p.2.sessionId := by
  unfold batchSaveChanges at hok
  cases hrun : runChanges st changes with
  | error e => rw [hrun] at hok; simp at hok
  | ok pr =>
    obtain ⟨st2, rs⟩ := pr
    rw [hrun] at hok
    simp only [Except.ok.injEq] at hok
    subst hok
    exact runChanges_results changes st st2 rs hrun hcls

/-- Witness for C4 (amended): the commit of `batchA2` over `exA` returns
one record per operation, in order — two moves and one create. -/
theorem batch_results_per_operation_witness :
    ([{ type := ChangeType.move, id := 1 }, { type := ChangeType.move, id := 2 },
      { type := ChangeType.create, id := 3 }] : List BatchResult).map BatchResult.type =
      batchA2.map Change.type ∧
    ∀ p ∈ ([{ type := ChangeType.move, id := 1 }, { type := ChangeType.move, id := 2 },
      { type := ChangeType.create, id := 3 }] : List BatchResult).zip batchA2,
      p.1.type = ChangeType.create ∨ p.1.id = p.2.sessionId :=
  batch_results_per_operation exA batchA2
    [{ type := ChangeType.move, id := 1 }, { type := ChangeType.move, id := 2 },
     { type := ChangeType.create, id := 3 }] rfl (by decide)

end Schedulr
